import Mathlib

/-!
Shallow embedding of the rgx GPU rendering core (src/core/mod.rs and
src/kit/sprite2d.rs) and proofs about its resource-creation, frame and
pipeline operations.

Modelling conventions:
* Machine integers are modelled as `Nat`.  A Rust `as u32` cast is the
  defined truncation `% 2^32`; it is written out wherever the source
  performs such a cast.  Arithmetic whose overflow behaviour is
  profile-dependent in Rust (panic in debug, wrap in release) is modelled
  with the release wrap `% 2^w`; theorems about such arithmetic carry a
  no-overflow hypothesis under which both profiles agree.
* Opaque wgpu handles (textures, views, GPU buffers) are modelled as `Nat`
  identifiers; freshly created handles take the device's counter where the
  identity matters and `0` where it does not.
* A `panic!`/`assert_eq!` failure is modelled by `Except.error`; code with
  no failure path is a total function.
* `f32` coordinates returned by `Texture::rect` are modelled exactly over
  `ℚ` (the `u32 -> f32` cast is exact for all dimensions below `2^24`).
-/

namespace Rgx

/-- Rust type `Rect<T>` from src/core/mod.rs: an axis-aligned box given by
two corner points. -/
structure Rect (α : Type) where
  x1 : α
  y1 : α
  x2 : α
  y2 : α
deriving DecidableEq

/-- Source `Rect::width`: `let w = self.x2 - self.x1; if w < zero { -w } else { w }`.
The trait bounds (`PartialOrd + Sub + Neg + Zero`) are rendered as a linear
ordered ring. -/
def Rect.width {α : Type} [LinearOrderedRing α] (r : Rect α) : α :=
  let w := r.x2 - r.x1
  if w < 0 then -w else w

/-- Source `Rect::height`: same computation on the y coordinates. -/
def Rect.height {α : Type} [LinearOrderedRing α] (r : Rect α) : α :=
  let h := r.y2 - r.y1
  if h < 0 then -h else h

/-- Rust enum `VertexFormat`. -/
inductive VertexFormat where
  | float
  | float2
  | float3
  | float4
  | ubyte4
deriving DecidableEq

/-- Source `VertexFormat::bytesize`. -/
def VertexFormat.bytesize : VertexFormat → Nat
  | .float => 4
  | .float2 => 8
  | .float3 => 12
  | .float4 => 16
  | .ubyte4 => 4

/-- wgpu `VertexAttributeDescriptor` as filled in by `VertexLayout::from`:
`shader_location` is a `u32`, `offset` a `u64` buffer address; the wgpu
vertex format is determined by the rgx format and is carried as such. -/
structure VertexAttributeDescriptor where
  shader_location : Nat
  offset : Nat
  format : VertexFormat
deriving DecidableEq

/-- Rust struct `VertexLayout`: the accumulated attribute descriptors and the
total byte size (`usize`). -/
structure VertexLayout where
  wgpu_attrs : List VertexAttributeDescriptor
  size : Nat
deriving DecidableEq

/-- The `#[derive(Default)]` value of `VertexLayout`. -/
def VertexLayout.default : VertexLayout := { wgpu_attrs := [], size := 0 }

/-- Source `VertexLayout::from`: pushes one descriptor per format with
`shader_location = wgpu_attrs.len() as u32` and `offset = size`, then grows
`size` by the format's byte size (`usize` addition, wrap modelled). -/
def VertexLayout.from (formats : List VertexFormat) : VertexLayout :=
  formats.foldl
    (fun vl vf =>
      { wgpu_attrs := vl.wgpu_attrs ++
          [{ shader_location := vl.wgpu_attrs.length % 2 ^ 32,
             offset := vl.size,
             format := vf }],
        size := (vl.size + vf.bytesize) % 2 ^ 64 })
    VertexLayout.default

/-- wgpu `Extent3d`. -/
structure Extent3d where
  width : Nat
  height : Nat
  depth : Nat
deriving DecidableEq

/-- Rust struct `Texture` from src/core/mod.rs.  The opaque wgpu texture and
view handles are `Nat` identifiers; the staging buffer is the list of texel
bytes it was filled from. -/
structure Texture where
  tex : Nat
  view : Nat
  extent : Extent3d
  buffer : List Nat
  w : Nat
  h : Nat
deriving DecidableEq

/-- Source `Device::create_texture`: `assert_eq!(texels.len() as u32,
w * h * 4, ...)` then allocation.  The panic on mismatch is `Except.error`;
the `as u32` cast of the length is the truncation `% 2^32`, and `w * h * 4`
is `u32` arithmetic.  The fresh wgpu handles are opaque and modelled as 0. -/
def Device.create_texture (texels : List Nat) (w h : Nat) : Except String Texture :=
  if texels.length % 2 ^ 32 = w * h * 4 % 2 ^ 32 then
    Except.ok
      { tex := 0, view := 0, extent := { width := w, height := h, depth := 1 },
        buffer := texels, w := w, h := h }
  else
    Except.error "wrong texture width or height given"

/-- Source `Texture::rect`: `(0.0, 0.0, w as f32, h as f32)`, modelled
exactly over `ℚ`. -/
def Texture.rect (t : Texture) : Rect ℚ :=
  { x1 := 0, y1 := 0, x2 := (t.w : ℚ), y2 := (t.h : ℚ) }

/-- Rust struct `Framebuffer`: like `Texture` but with an optional staging
buffer. -/
structure Framebuffer where
  texture : Nat
  texture_view : Nat
  extent : Extent3d
  buffer : Option (List Nat)
  w : Nat
  h : Nat
deriving DecidableEq

/-- Source `Framebuffer::size`: `(self.w * self.h) as usize`, a `u32`
product (wrap modelled) widened to `usize`. -/
def Framebuffer.size (fb : Framebuffer) : Nat :=
  fb.w * fb.h % 2 ^ 32

/-- Source `Device::create_framebuffer`: no length assertion; the staging
buffer is allocated only when `texels` is non-empty. -/
def Device.create_framebuffer (texels : List Nat) (w h : Nat) : Framebuffer :=
  { texture := 0, texture_view := 0,
    extent := { width := w, height := h, depth := 1 },
    buffer := if texels.isEmpty then none else some texels,
    w := w, h := h }

/-- Rust struct `Rgba` (f32 components).  The color scalars are modelled
over `ℚ`; the code under verification only constructs and copies them. -/
structure Rgba where
  r : ℚ
  g : ℚ
  b : ℚ
  a : ℚ
deriving DecidableEq

/-- Source constant `Rgba::WHITE`. -/
def Rgba.WHITE : Rgba := { r := 1, g := 1, b := 1, a := 1 }

/-- Source constant `Rgba::TRANSPARENT`. -/
def Rgba.TRANSPARENT : Rgba := { r := 0, g := 0, b := 0, a := 0 }

/-- wgpu `Color` (f64 components; the `f32 -> f64` widening is exact and
modelled as the identity on `ℚ`). -/
structure WgpuColor where
  r : ℚ
  g : ℚ
  b : ℚ
  a : ℚ
deriving DecidableEq

/-- Source `Rgba::to_wgpu`. -/
def Rgba.to_wgpu (c : Rgba) : WgpuColor :=
  { r := c.r, g := c.g, b := c.b, a := c.a }

/-- wgpu `LoadOp` (the backend vocabulary has both variants; the rgx core
only ever uses `Clear`). -/
inductive LoadOp where
  | Clear
  | Load
deriving DecidableEq

/-- wgpu `StoreOp` as used by the core. -/
inductive StoreOp where
  | Store
deriving DecidableEq

/-- wgpu `RenderPassColorAttachmentDescriptor` as filled in by
`Pass::begin` (attachment is a texture-view handle). -/
structure RenderPassColorAttachmentDescriptor where
  attachment : Nat
  load_op : LoadOp
  store_op : StoreOp
  clear_color : WgpuColor
deriving DecidableEq

/-- GPU commands recorded into a command encoder, as issued by the core:
staging-buffer uploads (`copy_buffer_to_texture`), readback copies
(`copy_texture_to_buffer`, destination is a fresh buffer handle), and
render-pass openings. -/
inductive Command where
  | copyBufferToTexture (buffer : List Nat) (offset rowPitch imageHeight : Nat)
      (texture : Nat) (extent : Extent3d)
  | copyTextureToBuffer (texture : Nat) (buffer : Nat) (offset rowPitch imageHeight : Nat)
      (extent : Extent3d)
  | beginRenderPass (desc : RenderPassColorAttachmentDescriptor)
deriving DecidableEq

/-- wgpu `CommandEncoder`: the list of recorded commands. -/
structure CommandEncoder where
  commands : List Command
deriving DecidableEq

/-- wgpu `CommandEncoder::finish`: the finished command buffer is the
recorded command list. -/
def CommandEncoder.finish (e : CommandEncoder) : List Command :=
  e.commands

/-- Source `Texture::blit`: records one buffer-to-texture copy with
offset 0, row pitch `4 * w` (`u32` arithmetic) and image height `h`. -/
def Texture.blit (texture : Nat) (w h : Nat) (extent : Extent3d) (buffer : List Nat)
    (encoder : CommandEncoder) : CommandEncoder :=
  { commands := encoder.commands ++
      [Command.copyBufferToTexture buffer 0 (4 * w % 2 ^ 32) h texture extent] }

/-- Source `impl Resource for &Framebuffer`: copies the staging buffer into
the texture when one is present, otherwise records nothing. -/
def Framebuffer.prepare (fb : Framebuffer) (encoder : CommandEncoder) : CommandEncoder :=
  match fb.buffer with
  | some buffer => Texture.blit fb.texture fb.w fb.h fb.extent buffer encoder
  | none => encoder

/-- Rust struct `UniformBuffer`: the wgpu buffer (its element count is
retained) plus the recorded byte `size`. -/
structure UniformBuffer where
  size : Nat
  len : Nat
deriving DecidableEq

/-- Source `Device::create_uniform_buffer<T>`: the wgpu buffer is filled
from the whole slice, but `size` records `size_of::<T>()` only.  Rust's
`size_of::<T>()` is passed explicitly as `elemSize`, since Lean types carry
no intrinsic byte size. -/
def Device.create_uniform_buffer {α : Type} (elemSize : Nat) (buf : List α) :
    UniformBuffer :=
  { size := elemSize, len := buf.length }

/-- Rust enum `Filter`. -/
inductive Filter where
  | Nearest
  | Linear
deriving DecidableEq

/-- Rust struct `Sampler`, identified by its filter configuration (the
remaining wgpu sampler-descriptor fields are fixed constants). -/
structure Sampler where
  min_filter : Filter
  mag_filter : Filter
deriving DecidableEq

/-- Source `Device::create_sampler`. -/
def Device.create_sampler (min_filter mag_filter : Filter) : Sampler :=
  { min_filter := min_filter, mag_filter := mag_filter }

/-- Rust enum `ShaderStage`. -/
inductive ShaderStage where
  | Vertex
  | Fragment
  | Compute
deriving DecidableEq

/-- Rust enum `BindingType`. -/
inductive BindingType where
  | UniformBuffer
  | Sampler
  | SampledTexture
deriving DecidableEq

/-- Rust struct `Binding`: one declared slot (resource kind and shader-stage
visibility). -/
structure Binding where
  binding : BindingType
  stage : ShaderStage
deriving DecidableEq

/-- wgpu `BindGroupLayoutBinding`. -/
structure BindGroupLayoutBinding where
  binding : Nat
  visibility : ShaderStage
  ty : BindingType
deriving DecidableEq

/-- Rust struct `BindingGroupLayout`: the wgpu layout handle is modelled by
the descriptor contents it was created from; `size` is the slot count. -/
structure BindingGroupLayout where
  wgpuBindings : List BindGroupLayoutBinding
  size : Nat
  set_index : Nat
deriving DecidableEq

/-- Source `Device::create_binding_group_layout`: pushes one wgpu layout
binding per slot, numbered `bindings.len() as u32`, then records
`bindings.len()` as the slot count. -/
def Device.create_binding_group_layout (index : Nat) (slots : List Binding) :
    BindingGroupLayout :=
  let bindings := slots.foldl
    (fun bs s => bs ++
      [{ binding := bs.length % 2 ^ 32, visibility := s.stage, ty := s.binding }])
    []
  { wgpuBindings := bindings, size := bindings.length, set_index := index }

/-- wgpu `BindingResource`, carrying the bound object (buffer plus byte
range, texture view handle, or sampler). -/
inductive BindingResource where
  | buffer (u : UniformBuffer) (rangeStart rangeEnd : Nat)
  | textureView (view : Nat)
  | samplerObj (s : Sampler)
deriving DecidableEq

/-- wgpu `Binding`: a slot number plus the resource occupying it. -/
structure WgpuBinding where
  binding : Nat
  resource : BindingResource
deriving DecidableEq

/-- Source `impl Bind for UniformBuffer`: buffer resource with byte range
`0 .. self.size`. -/
def UniformBuffer.binding (u : UniformBuffer) (index : Nat) : WgpuBinding :=
  { binding := index, resource := BindingResource.buffer u 0 u.size }

/-- Source `impl Bind for Framebuffer`. -/
def Framebuffer.binding (fb : Framebuffer) (index : Nat) : WgpuBinding :=
  { binding := index, resource := BindingResource.textureView fb.texture_view }

/-- Source `impl Bind for Texture`. -/
def Texture.binding (t : Texture) (index : Nat) : WgpuBinding :=
  { binding := index, resource := BindingResource.textureView t.view }

/-- Source `impl Bind for Sampler`. -/
def Sampler.binding (s : Sampler) (index : Nat) : WgpuBinding :=
  { binding := index, resource := BindingResource.samplerObj s }

/-- A `&dyn Bind` trait object: one of the resource types implementing
`Bind`. -/
inductive DynBind where
  | uniformBuffer (u : UniformBuffer)
  | framebuffer (fb : Framebuffer)
  | texture (t : Texture)
  | samplerObj (s : Sampler)
deriving DecidableEq

/-- Trait-object dispatch of `Bind::binding`. -/
def DynBind.binding : DynBind → Nat → WgpuBinding
  | .uniformBuffer u, index => u.binding index
  | .framebuffer fb, index => fb.binding index
  | .texture t, index => t.binding index
  | .samplerObj s, index => s.binding index

/-- Rust struct `BindingGroup`: the owning layout's set index plus the wgpu
bind group, modelled by the descriptor contents it was created from. -/
structure BindingGroup where
  set_index : Nat
  bindings : List WgpuBinding
deriving DecidableEq

/-- Source `Device::create_binding_group`: `assert_eq!(binds.len(),
layout.size, ...)` (panic modelled by `Except.error`), then one wgpu binding
per resource, indexed by the loop counter cast `i as u32`. -/
def Device.create_binding_group (layout : BindingGroupLayout) (binds : List DynBind) :
    Except String BindingGroup :=
  if binds.length = layout.size then
    Except.ok
      { set_index := layout.set_index,
        bindings := binds.enum.map (fun p => p.2.binding (p.1 % 2 ^ 32)) }
  else
    Except.error "layout slot count does not match bindings"

/-- The wgpu device/queue state touched by the frame operations: a counter
producing fresh buffer handles (`device.create_buffer`) and the queue's
list of submitted command buffers. -/
structure DeviceState where
  nextBufferId : Nat
  submissions : List (List Command)
deriving DecidableEq

/-- Source `Device::submit`: `self.device.get_queue().submit(cmds)`. -/
def DeviceState.submit (d : DeviceState) (cmds : List (List Command)) : DeviceState :=
  { d with submissions := d.submissions ++ cmds }

/-- Rust enum `OnDrop`, single variant `ReadAsync(buffer, size, callback)`;
the boxed closure is identified by a callback id. -/
structure ReadAsyncAction where
  buf : Nat
  size : Nat
  cb : Nat
deriving DecidableEq

/-- Rust struct `Frame`: the manually-dropped command encoder, the acquired
swap-chain texture (by its view handle), the borrowed device, and the queue
of deferred actions. -/
structure Frame where
  encoder : CommandEncoder
  textureView : Nat
  device : DeviceState
  on_drop : List ReadAsyncAction
deriving DecidableEq

/-- Source `Frame::new`: wraps the encoder and starts with no deferred
actions. -/
def Frame.new (encoder : CommandEncoder) (textureView : Nat) (device : DeviceState) :
    Frame :=
  { encoder := encoder, textureView := textureView, device := device, on_drop := [] }

/-- Source `Frame::read_async`: computes `bytesize = 4 * fb.size()`,
allocates a fresh MAP_READ destination buffer of that size, records the
texture-to-buffer copy (offset 0, row pitch `4 * fb.w` in `u32` arithmetic,
image height `fb.h`), and appends the deferred ReadAsync action. -/
def Frame.read_async (f : Frame) (fb : Framebuffer) (cb : Nat) : Frame :=
  let bytesize := 4 * fb.size
  let dst := f.device.nextBufferId
  { encoder := { commands := f.encoder.commands ++
      [Command.copyTextureToBuffer fb.texture dst 0 (4 * fb.w % 2 ^ 32) fb.h fb.extent] },
    textureView := f.textureView,
    device := { nextBufferId := dst + 1, submissions := f.device.submissions },
    on_drop := f.on_drop ++ [{ buf := dst, size := bytesize, cb := cb }] }

/-- Observable effects of dropping a Frame: the queue submission of the
finished encoder, then one asynchronous map-and-read trigger per deferred
action (`map_read_async(0, size, callback)`: the mapped slice passed to the
callback spans `size` bytes of the destination buffer). -/
inductive DropEvent where
  | submitted (cmds : List Command)
  | mapReadAsync (buf : Nat) (start : Nat) (size : Nat) (cb : Nat)
deriving DecidableEq

/-- Source `impl Drop for Frame`: finish and submit the encoder, then drain
`on_drop` front to back, issuing one `map_read_async` per action. -/
def Frame.drop (f : Frame) : DeviceState × List DropEvent :=
  (f.device.submit [f.encoder.finish],
    DropEvent.submitted f.encoder.finish ::
      f.on_drop.map (fun a => DropEvent.mapReadAsync a.buf 0 a.size a.cb))

/-- Discriminator for queue submissions among drop events. -/
def DropEvent.isSubmission : DropEvent → Bool
  | .submitted _ => true
  | .mapReadAsync _ _ _ _ => false

/-- The (callback, mapped byte length) pair of a map-read trigger. -/
def DropEvent.readInfo : DropEvent → Option (Nat × Nat)
  | .submitted _ => none
  | .mapReadAsync _ _ size cb => some (cb, size)

/-- Source `Pass::begin`: records the render pass into the encoder; the
single color attachment always uses `LoadOp::Clear` and `StoreOp::Store`
with the given clear color. -/
def Pass.begin (encoder : CommandEncoder) (view : Nat) (clear_color : Rgba) :
    CommandEncoder × RenderPassColorAttachmentDescriptor :=
  let desc : RenderPassColorAttachmentDescriptor :=
    { attachment := view, load_op := LoadOp.Clear, store_op := StoreOp.Store,
      clear_color := clear_color.to_wgpu }
  ({ commands := encoder.commands ++ [Command.beginRenderPass desc] }, desc)

/-- Source `Frame::pass`: `Pass::begin(&mut self.encoder,
&self.texture.view, clear)` -- the target is always the frame's own
swap-chain view and the only parameter is the clear color. -/
def Frame.pass (f : Frame) (clear : Rgba) :
    Frame × RenderPassColorAttachmentDescriptor :=
  let r := Pass.begin f.encoder f.textureView clear
  ({ f with encoder := r.1 }, r.2)

/-- Source `Frame::offscreen_pass`: same, against a framebuffer's view. -/
def Frame.offscreen_pass (f : Frame) (clear : Rgba) (fb : Framebuffer) :
    Frame × RenderPassColorAttachmentDescriptor :=
  let r := Pass.begin f.encoder fb.texture_view clear
  ({ f with encoder := r.1 }, r.2)

/-- cgmath `Matrix4<f32>` values, modelled by their entry list over exact
scalars; the code under verification only stores and copies matrices. -/
structure Mat4 where
  entries : List ℚ
deriving DecidableEq

/-- sprite2d `Uniforms`: an orthographic projection and a transform. -/
structure SpriteUniforms where
  ortho : Mat4
  transform : Mat4
deriving DecidableEq

/-- Rust struct `Pipeline` (the core pipeline): the compiled wgpu render
pipeline (opaque), the pipeline layout's binding-group layouts, and the
vertex layout. -/
structure Pipeline where
  wgpu : Nat
  layout : List BindingGroupLayout
  vertex_layout : VertexLayout
deriving DecidableEq

/-- Source `impl AbstractPipeline for Pipeline` (core): `prepare` has unit
context and uniforms and always returns None.  The `&self` receiver is
returned unchanged to make the state passing explicit. -/
def Pipeline.prepare (p : Pipeline) (_t : Unit) :
    Pipeline × Option (UniformBuffer × List Unit) :=
  (p, none)

/-- sprite2d `Pipeline` state.  The compiled core pipeline and the
`kit::Model` (whose code lies outside the embedded sources) are opaque
handles; `prepare` touches none of them. -/
structure SpritePipeline where
  pipeline : Nat
  bindings : BindingGroup
  buf : UniformBuffer
  width : Nat
  height : Nat
  ortho : Mat4
  model : Nat
deriving DecidableEq

/-- Source sprite2d `Pipeline::prepare` (src/kit/sprite2d.rs): takes
`&self` and a transform context, and always returns Some of the pipeline's
own uniform buffer together with the single Uniforms value made of the
cached ortho and the given transform.  The `&self` receiver is returned
unchanged to make the state passing explicit. -/
def SpritePipeline.prepare (p : SpritePipeline) (transform : Mat4) :
    SpritePipeline × Option (UniformBuffer × List SpriteUniforms) :=
  (p, some (p.buf, [{ ortho := p.ortho, transform := transform }]))

/-- Sample value: a 2x2 texture as produced by a successful create_texture
call on 16 zero texel bytes (used for concrete instantiations). -/
def tex2x2 : Texture :=
  { tex := 0, view := 0, extent := { width := 2, height := 2, depth := 1 },
    buffer := List.replicate 16 0, w := 2, h := 2 }

/-- Sample value: a nearest-filter sampler. -/
def nearestSampler : Sampler :=
  { min_filter := Filter.Nearest, mag_filter := Filter.Nearest }

/-- Sample value: the texture + sampler layout of the sprite pipeline's
set 2. -/
def texSamplerLayout : BindingGroupLayout :=
  Device.create_binding_group_layout 2
    [{ binding := BindingType.SampledTexture, stage := ShaderStage.Fragment },
     { binding := BindingType.Sampler, stage := ShaderStage.Fragment }]

/-- Sample value: the matching resource list for texSamplerLayout. -/
def texSamplerBinds : List DynBind :=
  [DynBind.texture tex2x2, DynBind.samplerObj nearestSampler]

/-- Claim C7 -- For every Rect value, width() and height() are nonnegative
and equal the absolute differences of the respective coordinates. -/
theorem rect_width_height_abs {α : Type} [LinearOrderedRing α] (r : Rect α) :
    0 ≤ r.width ∧ 0 ≤ r.height ∧
      r.width = |r.x2 - r.x1| ∧ r.height = |r.y2 - r.y1| := by
  have hw : r.width = |r.x2 - r.x1| := by
    unfold Rect.width
    rcases lt_or_le (r.x2 - r.x1) 0 with h | h
    · simp [h, abs_of_neg h]
    · simp [not_lt.mpr h, abs_of_nonneg h]
  have hh : r.height = |r.y2 - r.y1| := by
    unfold Rect.height
    rcases lt_or_le (r.y2 - r.y1) 0 with h | h
    · simp [h, abs_of_neg h]
    · simp [not_lt.mpr h, abs_of_nonneg h]
  exact ⟨hw ▸ abs_nonneg _, hh ▸ abs_nonneg _, hw, hh⟩

/-- Witness for C7 at a concrete inverted rectangle over the integers. -/
theorem rect_width_height_abs_witness :
    0 ≤ (Rect.mk 3 5 1 2 : Rect ℤ).width ∧
      0 ≤ (Rect.mk 3 5 1 2 : Rect ℤ).height ∧
      (Rect.mk 3 5 1 2 : Rect ℤ).width = |(1 : ℤ) - 3| ∧
      (Rect.mk 3 5 1 2 : Rect ℤ).height = |(2 : ℤ) - 5| :=
  rect_width_height_abs (Rect.mk 3 5 1 2 : Rect ℤ)

/-- Claim C8 -- VertexLayout::from assigns attribute i the byte offset equal
to the sum of the byte sizes of formats 0..i, and the total stride (the
layout's `size`, used as the wgpu stride) equals the sum of all byte sizes.
The hypothesis rules out `usize` overflow of the running size, under which
debug and release Rust agree. -/
theorem vertex_layout_offsets (formats : List VertexFormat)
    (h : (formats.map VertexFormat.bytesize).sum < 2 ^ 64) :
    (VertexLayout.from formats).size = (formats.map VertexFormat.bytesize).sum ∧
      (VertexLayout.from formats).wgpu_attrs.length = formats.length ∧
      ∀ i, i < formats.length →
        ((VertexLayout.from formats).wgpu_attrs[i]?.map VertexAttributeDescriptor.offset)
          = some (((formats.take i).map VertexFormat.bytesize).sum) := by
  induction formats using List.reverseRecOn with
  | nil => simp [VertexLayout.from, VertexLayout.default]
  | append_singleton fs f ih =>
      have hsum : ((fs ++ [f]).map VertexFormat.bytesize).sum
          = (fs.map VertexFormat.bytesize).sum + f.bytesize := by
        simp
      have hfs : (fs.map VertexFormat.bytesize).sum < 2 ^ 64 :=
        lt_of_le_of_lt (Nat.le_add_right _ _) (hsum ▸ h)
      obtain ⟨ih1, ih2, ih3⟩ := ih hfs
      have hfold : VertexLayout.from (fs ++ [f]) =
          { wgpu_attrs := (VertexLayout.from fs).wgpu_attrs ++
              [{ shader_location := (VertexLayout.from fs).wgpu_attrs.length % 2 ^ 32,
                 offset := (VertexLayout.from fs).size,
                 format := f }],
            size := ((VertexLayout.from fs).size + f.bytesize) % 2 ^ 64 } := by
        simp [VertexLayout.from, List.foldl_append]
      refine ⟨?_, ?_, ?_⟩
      · rw [hfold, hsum, ih1]
        exact Nat.mod_eq_of_lt (hsum ▸ h)
      · rw [hfold]
        simp [ih2]
      · intro i hi
        rcases Nat.lt_or_ge i fs.length with hlt | hge
        · rw [hfold]
          simp only [List.getElem?_append_left (ih2 ▸ hlt),
            List.take_append_of_le_length (Nat.le_of_lt hlt)]
          exact ih3 i hlt
        · have hieq : i = fs.length := by
            have hi1 : i < fs.length + 1 := by simpa using hi
            omega
          subst hieq
          rw [hfold]
          simp only [List.getElem?_append_right (Nat.le_of_eq ih2), ih2, Nat.sub_self,
            List.take_left]
          simp [ih1]

/-- Witness for C8 at the sprite pipeline's vertex layout
`[Float2, Float2, UByte4, Float]`. -/
theorem vertex_layout_offsets_witness :
    ([VertexFormat.float2, VertexFormat.float2, VertexFormat.ubyte4,
        VertexFormat.float].map VertexFormat.bytesize).sum < 2 ^ 64 ∧
      (VertexLayout.from [VertexFormat.float2, VertexFormat.float2,
          VertexFormat.ubyte4, VertexFormat.float]).size = 24 := by
  refine ⟨by norm_num [VertexFormat.bytesize], ?_⟩
  have h := (vertex_layout_offsets
    [VertexFormat.float2, VertexFormat.float2, VertexFormat.ubyte4, VertexFormat.float]
    (by norm_num [VertexFormat.bytesize])).1
  rw [h]
  norm_num [VertexFormat.bytesize]

/-- Counterexample to claim C2 as stated: a texel slice of length 2^32 + 16
with w = h = 2 has texels.len() ≠ w*h*4, yet create_texture succeeds,
because the assert compares `texels.len() as u32`, a truncating cast. -/
theorem create_texture_len_cast_cex :
    (Device.create_texture (List.replicate (2 ^ 32 + 16) 0) 2 2).isOk = true ∧
      (2 ^ 32 + 16 : Nat) ≠ 2 * 2 * 4 := by
  constructor
  · unfold Device.create_texture
    rw [List.length_replicate, if_pos (by norm_num)]
    rfl
  · norm_num

/-- Helper: `toOption` of a successful `Except` result. -/
theorem except_toOption_ok {ε α : Type} (a : α) :
    (Except.ok a : Except ε α).toOption = some a := rfl

/-- Claim C2 amended -- create_texture succeeds iff texels.len() and w*h*4
agree modulo 2^32 (the assert casts the length to u32 before comparing; for
texels.len() < 2^32 and w*h*4 < 2^32 this is the claimed exact check), and
on success rect() returns the rectangle (0, 0, w, h). -/
theorem create_texture_ok_iff (texels : List Nat) (w h : Nat) :
    ((Device.create_texture texels w h).isOk = true ↔
        texels.length % 2 ^ 32 = w * h * 4 % 2 ^ 32) ∧
      (texels.length % 2 ^ 32 = w * h * 4 % 2 ^ 32 →
        (Device.create_texture texels w h).toOption.map Texture.rect
          = some { x1 := 0, y1 := 0, x2 := (w : ℚ), y2 := (h : ℚ) }) := by
  constructor
  · unfold Device.create_texture
    split <;> simp_all [Except.isOk, Except.toBool]
  · intro hlen
    unfold Device.create_texture
    split
    · rfl
    · exact absurd hlen (by assumption)

/-- Witness for C2 (amended): a 2x2 texture from 16 texel bytes is created
and reports rect() = (0, 0, 2, 2). -/
theorem create_texture_ok_iff_witness :
    (Device.create_texture (List.replicate 16 0) 2 2).toOption.map Texture.rect
      = some { x1 := 0, y1 := 0, x2 := (2 : ℚ), y2 := (2 : ℚ) } := by
  have h := (create_texture_ok_iff (List.replicate 16 0) 2 2).2 (by simp)
  simpa using h

/-- Counterexample to claim C4 as stated: create_framebuffer performs no
texel-length check.  With the non-empty one-byte texel slice [0] and
w = h = 2 (so 1 ≠ 2*2*4) creation does not fail: it returns a framebuffer
with a staging buffer. -/
theorem create_framebuffer_no_check_cex :
    Device.create_framebuffer [0] 2 2 =
        { texture := 0, texture_view := 0,
          extent := { width := 2, height := 2, depth := 1 },
          buffer := some [0], w := 2, h := 2 } ∧
      (1 : Nat) ≠ 2 * 2 * 4 := by
  constructor
  · rfl
  · norm_num

/-- Claim C4 amended -- create_framebuffer applies no texel-length
precondition: for every texels, w, h it succeeds, recording the dimensions
and a staging buffer exactly when texels is non-empty. -/
theorem create_framebuffer_total (texels : List Nat) (w h : Nat) :
    (Device.create_framebuffer texels w h).w = w ∧
      (Device.create_framebuffer texels w h).h = h ∧
      (Device.create_framebuffer texels w h).extent
        = { width := w, height := h, depth := 1 } ∧
      (Device.create_framebuffer texels w h).buffer
        = (if texels.isEmpty then none else some texels) :=
  ⟨rfl, rfl, rfl, rfl⟩

/-- Claim C5 -- a framebuffer from create_framebuffer holds a staging buffer
iff the initial texels are non-empty, and prepare on a framebuffer without a
staging buffer records no command into the encoder. -/
theorem framebuffer_staging_iff (texels : List Nat) (w h : Nat)
    (fb : Framebuffer) (enc : CommandEncoder) :
    ((Device.create_framebuffer texels w h).buffer.isSome = true ↔ texels ≠ []) ∧
      (fb.buffer = none → fb.prepare enc = enc) := by
  constructor
  · unfold Device.create_framebuffer
    rcases texels with _ | ⟨t, ts⟩ <;> simp
  · intro hnone
    unfold Framebuffer.prepare
    rw [hnone]

/-- Witness for C5: a framebuffer created with empty texels has no staging
buffer, and its prepare leaves an empty encoder unchanged. -/
theorem framebuffer_staging_iff_witness :
    ((Device.create_framebuffer [1, 2, 3, 4] 1 1).buffer.isSome = true ↔
        ([1, 2, 3, 4] : List Nat) ≠ []) ∧
      (Device.create_framebuffer [] 4 4).prepare { commands := [] }
        = { commands := [] } :=
  ⟨(framebuffer_staging_iff [1, 2, 3, 4] 1 1 (Device.create_framebuffer [] 4 4)
      { commands := [] }).1,
    (framebuffer_staging_iff [1, 2, 3, 4] 1 1 (Device.create_framebuffer [] 4 4)
      { commands := [] }).2 rfl⟩

/-- Helper: the slot count recorded by create_binding_group_layout equals
the number of declared slots. -/
theorem create_binding_group_layout_size (index : Nat) (slots : List Binding) :
    (Device.create_binding_group_layout index slots).size = slots.length := by
  suffices hgen : ∀ init : List BindGroupLayoutBinding,
      (slots.foldl
        (fun bs s => bs ++
          [{ binding := bs.length % 2 ^ 32, visibility := s.stage, ty := s.binding }])
        init).length = init.length + slots.length by
    simpa [Device.create_binding_group_layout] using hgen []
  induction slots with
  | nil => intro init; simp
  | cons s ss ih =>
      intro init
      simp only [List.foldl_cons, ih]
      simp
      omega

/-- Counterexample to claim C3 as stated: against a layout with 2^32 + 1
slots and a matching number of resources, creation succeeds, but resource
number 2^32 is bound with slot descriptor index 0 (the loop index is cast
`i as u32`), so input order is not the bound-slot order. -/
theorem create_binding_group_slot_wrap_cex :
    (Device.create_binding_group
          (Device.create_binding_group_layout 0
            (List.replicate (2 ^ 32 + 1)
              { binding := BindingType.Sampler, stage := ShaderStage.Fragment }))
          (List.replicate (2 ^ 32 + 1)
            (DynBind.samplerObj { min_filter := Filter.Nearest,
                                  mag_filter := Filter.Nearest }))).toOption.bind
        (fun g => g.bindings[(2 ^ 32 : Nat)]?.map WgpuBinding.binding)
      = some 0 ∧ (2 ^ 32 : Nat) ≠ 0 := by
  constructor
  · unfold Device.create_binding_group
    rw [List.length_replicate, create_binding_group_layout_size, List.length_replicate,
        if_pos rfl, except_toOption_ok, Option.some_bind]
    rw [List.getElem?_map, List.getElem?_enum, List.getElem?_replicate,
        if_pos (by norm_num)]
    norm_num [DynBind.binding, Sampler.binding, Option.map_some']
  · norm_num

/-- Claim C3 amended -- creation succeeds iff the resource count equals the
layout's slot count; on success the group carries the layout's set index and
resource i is bound with slot descriptor index i % 2^32 (the loop counter is
cast `i as u32`; for every i < 2^32, hence for every realizable group size,
this is exactly i, so input order equals bound-slot order). -/
theorem create_binding_group_ok_iff (layout : BindingGroupLayout)
    (binds : List DynBind) (i : Nat) :
    ((Device.create_binding_group layout binds).isOk = true ↔
        binds.length = layout.size) ∧
      (binds.length = layout.size →
        (Device.create_binding_group layout binds).toOption.map BindingGroup.set_index
            = some layout.set_index ∧
          (Device.create_binding_group layout binds).toOption.bind
              (fun g => g.bindings[i]?)
            = binds[i]?.map (fun b => b.binding (i % 2 ^ 32))) := by
  constructor
  · unfold Device.create_binding_group
    split <;> simp_all [Except.isOk, Except.toBool]
  · intro hlen
    unfold Device.create_binding_group
    split
    · refine ⟨rfl, ?_⟩
      rw [except_toOption_ok, Option.some_bind, List.getElem?_map, List.getElem?_enum]
      cases binds[i]? <;> rfl
    · exact absurd hlen (by assumption)

/-- Witness for C3 (amended): a two-slot texture + sampler layout accepts
exactly its two resources, and the sampler (resource 1) is bound at slot
index 1. -/
theorem create_binding_group_ok_iff_witness :
    (Device.create_binding_group texSamplerLayout texSamplerBinds).toOption.bind
        (fun g => g.bindings[(1 : Nat)]?)
      = texSamplerBinds[(1 : Nat)]?.map (fun b => b.binding (1 % 2 ^ 32)) ∧
      texSamplerBinds[(1 : Nat)]?.map (fun b => b.binding (1 % 2 ^ 32))
        = some (nearestSampler.binding 1) :=
  ⟨((create_binding_group_ok_iff texSamplerLayout texSamplerBinds 1).2 (by rfl)).2,
    by decide⟩

/-- Claim C10 -- create_uniform_buffer records the byte size of a single
element (size_of::<T>(), passed as elemSize), not of the whole slice, and
binding the buffer exposes exactly the byte range 0 .. elemSize regardless
of the slice length. -/
theorem uniform_buffer_range {α : Type} (elemSize : Nat) (buf : List α) (i : Nat) :
    (Device.create_uniform_buffer elemSize buf).size = elemSize ∧
      (Device.create_uniform_buffer elemSize buf).binding i
        = { binding := i,
            resource := BindingResource.buffer
              (Device.create_uniform_buffer elemSize buf) 0 elemSize } :=
  ⟨rfl, rfl⟩

/-- Helper: folding read_async calls never touches the device's submission
queue. -/
theorem read_async_foldl_submissions (regs : List (Framebuffer × Nat)) :
    ∀ f0 : Frame,
      (regs.foldl (fun fr p => fr.read_async p.1 p.2) f0).device.submissions
        = f0.device.submissions := by
  induction regs with
  | nil => intro f0; rfl
  | cons r rs ih =>
      intro f0
      simp only [List.foldl_cons]
      rw [ih]
      rfl

/-- Helper: the deferred actions accumulated by folding read_async calls,
projected to (callback, byte size), extend the initial queue in call
order with one entry of size `4 * fb.size()` per call. -/
theorem read_async_foldl_on_drop (regs : List (Framebuffer × Nat)) :
    ∀ f0 : Frame,
      (regs.foldl (fun fr p => fr.read_async p.1 p.2) f0).on_drop.map
          (fun a => (a.cb, a.size))
        = f0.on_drop.map (fun a => (a.cb, a.size)) ++
            regs.map (fun p => (p.2, 4 * p.1.size)) := by
  induction regs with
  | nil => intro f0; simp
  | cons r rs ih =>
      intro f0
      simp only [List.foldl_cons, List.map_cons]
      rw [ih]
      simp [Frame.read_async]

/-- Helper: map-read triggers are not submissions. -/
theorem filter_isSubmission_map (acts : List ReadAsyncAction) :
    ((acts.map (fun a => DropEvent.mapReadAsync a.buf 0 a.size a.cb)).filter
        DropEvent.isSubmission) = [] := by
  induction acts with
  | nil => rfl
  | cons a as ih => simp [List.filter_cons, DropEvent.isSubmission, ih]

/-- Helper: reading back the (callback, size) info of the map-read
triggers of an action list. -/
theorem filterMap_readInfo_map (acts : List ReadAsyncAction) :
    ((acts.map (fun a => DropEvent.mapReadAsync a.buf 0 a.size a.cb)).filterMap
        DropEvent.readInfo) = acts.map (fun a => (a.cb, a.size)) := by
  induction acts with
  | nil => rfl
  | cons a as ih => simp [DropEvent.readInfo, ih]

/-- Claim C1 -- dropping a Frame built by registering read_async actions
submits its finished encoder to the device queue exactly once (and first),
then triggers every deferred action exactly once, in registration order,
each as a map-read whose mapped slice has byte length
4 * framebuffer.w * framebuffer.h.  The hypothesis rules out u32 overflow
of w * h, under which debug and release Rust agree. -/
theorem frame_drop_spec (enc : CommandEncoder) (tv : Nat) (dev : DeviceState)
    (regs : List (Framebuffer × Nat)) (f : Frame)
    (hf : f = regs.foldl (fun fr p => fr.read_async p.1 p.2) (Frame.new enc tv dev))
    (hwh : ∀ p ∈ regs, p.1.w * p.1.h < 2 ^ 32) :
    f.drop.1.submissions = dev.submissions ++ [f.encoder.finish] ∧
      f.drop.2.head? = some (DropEvent.submitted f.encoder.finish) ∧
      f.drop.2.filter DropEvent.isSubmission
        = [DropEvent.submitted f.encoder.finish] ∧
      f.drop.2.filterMap DropEvent.readInfo
        = regs.map (fun p => (p.2, 4 * (p.1.w * p.1.h))) := by
  refine ⟨?_, ?_, ?_, ?_⟩
  · show (f.device.submit [f.encoder.finish]).submissions = _
    rw [DeviceState.submit, hf, read_async_foldl_submissions]
    rfl
  · rfl
  · show (DropEvent.submitted f.encoder.finish ::
        f.on_drop.map (fun a => DropEvent.mapReadAsync a.buf 0 a.size a.cb)).filter
        DropEvent.isSubmission = _
    rw [List.filter_cons]
    simp only [DropEvent.isSubmission, if_pos trivial, filter_isSubmission_map]
  · show (DropEvent.submitted f.encoder.finish ::
        f.on_drop.map (fun a => DropEvent.mapReadAsync a.buf 0 a.size a.cb)).filterMap
        DropEvent.readInfo = _
    rw [List.filterMap_cons]
    simp only [DropEvent.readInfo]
    rw [filterMap_readInfo_map, hf, read_async_foldl_on_drop]
    simp only [Frame.new, List.map_nil, List.nil_append]
    apply List.map_congr_left
    intro p hp
    have hlt := hwh p hp
    show (p.2, 4 * p.1.size) = (p.2, 4 * (p.1.w * p.1.h))
    rw [Framebuffer.size, Nat.mod_eq_of_lt hlt]

/-- Witness for C1: a frame over an empty encoder with two registered
readbacks (a 2x3 and a 1x1 framebuffer, callbacks 10 and 11) triggers, in
order, callback 10 with 24 bytes and callback 11 with 4 bytes. -/
theorem frame_drop_spec_witness :
    (Frame.drop (List.foldl (fun fr p => fr.read_async p.1 p.2)
          (Frame.new { commands := [] } 7 { nextBufferId := 0, submissions := [] })
          [(Device.create_framebuffer [] 2 3, 10),
           (Device.create_framebuffer [] 1 1, 11)])).2.filterMap DropEvent.readInfo
      = [(10, 24), (11, 4)] := by
  have h := (frame_drop_spec { commands := [] } 7 { nextBufferId := 0, submissions := [] }
      [(Device.create_framebuffer [] 2 3, 10), (Device.create_framebuffer [] 1 1, 11)]
      _ rfl (by decide)).2.2.2
  rw [h]
  rfl

/-- Counterexample to claim C6 as stated: the clear behavior of a render
pass opened through Frame::pass can never be load-existing -- Pass::begin
hardcodes LoadOp::Clear and Frame::pass accepts only a clear color, so the
existence of a load-existing pass (the part of the claim offering both
behaviors) is refuted. -/
theorem frame_pass_no_load_cex :
    ¬ ∃ (f : Frame) (c : Rgba), (Frame.pass f c).2.load_op = LoadOp.Load := by
  rintro ⟨f, c, hload⟩
  simp [Frame.pass, Pass.begin] at hload

/-- Claim C6 amended -- Frame.pass takes only a clear color and opens a
render pass against the frame's own swap-chain view, always with
clear-to-color behavior (LoadOp::Clear, StoreOp::Store, the given color);
offscreen targets use the separate offscreen_pass with the same
always-clear behavior; load-existing is not available. -/
theorem frame_pass_clear_spec (f : Frame) (c : Rgba) (fb : Framebuffer) :
    (Frame.pass f c).2
        = { attachment := f.textureView, load_op := LoadOp.Clear,
            store_op := StoreOp.Store, clear_color := c.to_wgpu } ∧
      (Frame.pass f c).1.encoder.commands
        = f.encoder.commands ++ [Command.beginRenderPass (Frame.pass f c).2] ∧
      (Frame.offscreen_pass f c fb).2
        = { attachment := fb.texture_view, load_op := LoadOp.Clear,
            store_op := StoreOp.Store, clear_color := c.to_wgpu } :=
  ⟨rfl, rfl, rfl⟩

/-- Claim C9 -- prepare is deterministic in its context and the pipeline's
unchanged state: prepare takes the receiver by shared reference (the state
comes back unchanged), and two calls in immediate succession with the same
context return value-equal uniform payloads.  This holds for the sprite2d
pipeline (payload: own buffer plus ortho/transform uniforms) and for the
core Pipeline, whose prepare is constantly None. -/
theorem pipeline_prepare_deterministic (p : SpritePipeline) (t : Mat4)
    (q : Pipeline) (u : Unit) :
    ((p.prepare t).1 = p ∧ ((p.prepare t).1.prepare t).2 = (p.prepare t).2 ∧
        (p.prepare t).2 = some (p.buf, [{ ortho := p.ortho, transform := t }])) ∧
      ((q.prepare u).1 = q ∧ ((q.prepare u).1.prepare u).2 = (q.prepare u).2) :=
  ⟨⟨rfl, rfl, rfl⟩, rfl, rfl⟩

end Rgx
